import Mathlib

/-!
# Airchieve billing core — shallow embedding and verification

This file embeds the billing subsystem of the Airchieve backend
(`app/services/points_service.py`, `app/services/payment_service.py`,
`app/services/wechat_pay.py`, `app/api/v1/payment_api.py` and the models in
`app/models/{user,points,payment}.py`) as executable Lean definitions, and
proves or refutes the specification claims about it.

Modelling conventions:

* The relational store is a `DB` record of lists (one per table), passed and
  returned explicitly.  A service call that commits returns the new `DB`;
  a call that raises before committing returns the `DB` it was given.
  `handle_recharge_paid`, which commits the order transaction and then runs
  the ledger credit in a second independent transaction, returns the state
  after whichever transactions committed, together with the error if one
  was raised — exactly the two-transaction behaviour of the source.
* Python `datetime` instants are modelled as integers counting days, since
  the only arithmetic the source performs is `timedelta(days=30 * months)`
  and comparison.
* Python exceptions are the `PyErr` inductive: `valueError` for `ValueError`,
  `insufficientPoints` for the service's `InsufficientPointsError` subclass,
  `keyError` for `KeyError`, `invalidTag` for `cryptography`'s `InvalidTag`,
  `binasciiError` for a base64 decoding failure.
* Effectful inputs of the source (wall-clock time, the uuid nonce, the
  generated order number) are passed as explicit arguments.
* The RSA/AES-GCM/base64 primitives live in external libraries
  (`cryptography`, `base64`); they are passed as function arguments, so every
  theorem about them holds for an arbitrary implementation of the primitive.
-/

namespace Airchieve

/-! ## Data model (`app/models`) -/

/-- `OrderStatus` from `app/models/payment.py`. -/
inductive OrderStatus where
  | pending
  | paid
  | failed
  | refunded
deriving DecidableEq, Repr

/-- `SubscriptionStatus` from `app/models/payment.py`. -/
inductive SubscriptionStatus where
  | pending
  | active
  | expired
  | cancelled
deriving DecidableEq, Repr

/-- `MembershipLevel` from `app/models/user.py`. -/
inductive MembershipLevel where
  | free
  | lite
  | pro
  | max
deriving DecidableEq, Repr

/-- `PointsLogType` from `app/models/points.py`. -/
inductive PointsLogType where
  | recharge
  | creation_cost
  | bonus
  | refund
  | admin_adjust
deriving DecidableEq, Repr

/-- The columns of `users` read or written by the billing core
(`app/models/user.py`); defaults are `points_balance=0`,
`free_creation_remaining=1`, `membership_level=free`,
`membership_expire_at=NULL`. -/
structure User where
  id : Nat
  points_balance : Int
  free_creation_remaining : Int
  membership_level : MembershipLevel
  membership_expire_at : Option Int
deriving DecidableEq, Repr

/-- A `user_points_log` row (`app/models/points.py`). -/
structure UserPointsLog where
  user_id : Nat
  delta : Int
  type : PointsLogType
  description : Option String
  balance_after : Int
  related_order_id : Option String
deriving DecidableEq, Repr

/-- A `recharge_orders` row (`app/models/payment.py`). -/
structure RechargeOrder where
  user_id : Nat
  order_no : String
  amount_fen : Int
  points_amount : Int
  status : OrderStatus
  wechat_transaction_id : Option String
  paid_at : Option Int
deriving DecidableEq, Repr

/-- A `subscription_orders` row (`app/models/payment.py`). -/
structure SubscriptionOrder where
  user_id : Nat
  order_no : String
  level : MembershipLevel
  months : Int
  amount_fen : Int
  status : SubscriptionStatus
  wechat_transaction_id : Option String
  start_at : Option Int
  expire_at : Option Int
  paid_at : Option Int
deriving DecidableEq, Repr

/-- The relational store: one list per table, in insertion order. -/
structure DB where
  users : List User
  recharge_orders : List RechargeOrder
  subscription_orders : List SubscriptionOrder
  points_logs : List UserPointsLog
deriving DecidableEq, Repr

/-- Python exceptions raised by the billing core. -/
inductive PyErr where
  | valueError (msg : String)
  | insufficientPoints (msg : String)
  | keyError (key : String)
  | invalidTag
  | binasciiError
deriving DecidableEq, Repr

deriving instance DecidableEq for Except

/-- `str(e)` as used when a webhook handler reports a caught exception. -/
def errStr : PyErr → String
  | .valueError m => m
  | .insufficientPoints m => m
  | .keyError k => k
  | .invalidTag => "InvalidTag"
  | .binasciiError => "binascii.Error"

/-! ## Row lookup / update helpers (the SQLAlchemy queries)

`select(T).where(T.key == k)` with `scalar_one_or_none()` is `find?` on the
table (the looked-up columns `users.id`, `recharge_orders.order_no`,
`subscription_orders.order_no` all carry a uniqueness constraint); mutating
the selected ORM object and committing replaces that row. -/

def findUser (db : DB) (user_id : Nat) : Option User :=
  db.users.find? (fun u => u.id == user_id)

def updateUser (db : DB) (u : User) : DB :=
  { db with users := db.users.map (fun v => if v.id == u.id then u else v) }

def findRechargeOrder (db : DB) (order_no : String) : Option RechargeOrder :=
  db.recharge_orders.find? (fun o => o.order_no == order_no)

def updateRechargeOrder (db : DB) (o : RechargeOrder) : DB :=
  { db with recharge_orders :=
      db.recharge_orders.map (fun r => if r.order_no == o.order_no then o else r) }

def findSubscriptionOrder (db : DB) (order_no : String) : Option SubscriptionOrder :=
  db.subscription_orders.find? (fun o => o.order_no == order_no)

def updateSubscriptionOrder (db : DB) (o : SubscriptionOrder) : DB :=
  { db with subscription_orders :=
      db.subscription_orders.map (fun r => if r.order_no == o.order_no then o else r) }

/-- `user_service._create_user`: inserts a `users` row with the model
defaults (`points_balance=0`, `free_creation_remaining=1`,
`membership_level=free`, `membership_expire_at=NULL`).  The autoincrement
primary key is passed explicitly. -/
def _create_user (db : DB) (uid : Nat) : DB :=
  { db with users := db.users ++
      [{ id := uid
         points_balance := 0
         free_creation_remaining := 1
         membership_level := .free
         membership_expire_at := none }] }

/-! ## `app/services/points_service.py` -/

/-- Cost of one full storybook creation. -/
def CREATION_COST : Int := 10

/-- Cost of one single-page edit. -/
def PAGE_EDIT_COST : Int := 1

/-- `_apply_points_delta`: bump the cached balance and build the ledger row
whose `balance_after` snapshots the new balance. -/
def _apply_points_delta (u : User) (delta : Int) (log_type : PointsLogType)
    (description : Option String) (related_order_id : Option String) :
    User × UserPointsLog :=
  let u2 : User := { u with points_balance := u.points_balance + delta }
  (u2,
   { user_id := u.id
     delta := delta
     type := log_type
     description := description
     balance_after := u2.points_balance
     related_order_id := related_order_id })

/-- The commit of a transaction that ran `_apply_points_delta`: the updated
user row and the appended ledger row land together. -/
def applyDeltaDB (db : DB) (u : User) (delta : Int) (log_type : PointsLogType)
    (description : Option String) (related_order_id : Option String) : DB :=
  let r := _apply_points_delta u delta log_type description related_order_id
  let db1 := updateUser db r.1
  { db1 with points_logs := db1.points_logs ++ [r.2] }

/-- `consume_for_creation`: spend one free creation if available (no ledger
row), else debit `CREATION_COST` points, else raise `ValueError`. -/
def consume_for_creation (db : DB) (user_id : Nat) : DB × Except PyErr Unit :=
  match findUser db user_id with
  | none => (db, .error (.valueError "用户不存在"))
  | some u =>
    if u.free_creation_remaining > 0 then
      (updateUser db { u with free_creation_remaining := u.free_creation_remaining - 1 }, .ok ())
    else if u.points_balance < CREATION_COST then
      (db, .error (.valueError
        ("积分不足，创作需要 " ++ toString CREATION_COST ++ " 积分，当前余额 "
          ++ toString u.points_balance)))
    else
      (applyDeltaDB db u (-CREATION_COST) .creation_cost (some "绘本创作消耗") none, .ok ())

/-- `check_creation_points`: read-only check; this is where the
distinguishable `InsufficientPointsError` is raised. -/
def check_creation_points (db : DB) (user_id : Nat) : Except PyErr Unit :=
  match findUser db user_id with
  | none => .error (.valueError "用户不存在")
  | some u =>
    if u.free_creation_remaining > 0 then .ok ()
    else if u.points_balance < CREATION_COST then
      .error (.insufficientPoints
        ("积分不足，创作需要 " ++ toString CREATION_COST ++ " 积分，当前余额 "
          ++ toString u.points_balance))
    else .ok ()

/-- `check_page_edit_points`: read-only check raising
`InsufficientPointsError`. -/
def check_page_edit_points (db : DB) (user_id : Nat) : Except PyErr Unit :=
  match findUser db user_id with
  | none => .error (.valueError "用户不存在")
  | some u =>
    if u.points_balance < PAGE_EDIT_COST then
      .error (.insufficientPoints
        ("积分不足，单页编辑需要 " ++ toString PAGE_EDIT_COST ++ " 积分，当前余额 "
          ++ toString u.points_balance))
    else .ok ()

/-- `consume_for_page_edit`: always-ledgered fixed debit of
`PAGE_EDIT_COST`. -/
def consume_for_page_edit (db : DB) (user_id : Nat) : DB × Except PyErr Unit :=
  match findUser db user_id with
  | none => (db, .error (.valueError "用户不存在"))
  | some u =>
    if u.points_balance < PAGE_EDIT_COST then
      (db, .error (.valueError
        ("积分不足，单页编辑需要 " ++ toString PAGE_EDIT_COST ++ " 积分，当前余额 "
          ++ toString u.points_balance)))
    else
      (applyDeltaDB db u (-PAGE_EDIT_COST) .creation_cost (some "绘本单页编辑消耗") none, .ok ())

/-- `credit_recharge_points`: positive recharge credit tied to the order. -/
def credit_recharge_points (db : DB) (user_id : Nat) (points : Int) (order_no : String) :
    DB × Except PyErr Unit :=
  match findUser db user_id with
  | none => (db, .error (.valueError "用户不存在"))
  | some u =>
    (applyDeltaDB db u points .recharge (some ("微信支付充值，订单号 " ++ order_no))
      (some order_no), .ok ())

/-- `admin_adjust_points`: signed manual adjustment, rejected when it would
drive the balance negative. -/
def admin_adjust_points (db : DB) (user_id : Nat) (delta : Int) (description : String) :
    DB × Except PyErr Unit :=
  match findUser db user_id with
  | none => (db, .error (.valueError "用户不存在"))
  | some u =>
    if u.points_balance + delta < 0 then
      (db, .error (.valueError
        ("调整后余额将为负数（当前 " ++ toString u.points_balance ++ "，调整 "
          ++ toString delta ++ "）")))
    else
      (applyDeltaDB db u delta .admin_adjust (some description) none, .ok ())

/-! ## `app/services/payment_service.py` -/

/-- `POINTS_PER_YUAN`: recharge conversion rate, 1 yuan = 3 points. -/
def POINTS_PER_YUAN : Int := 3

/-- `_add_months`: one month is uniformly 30 days
(`timedelta(days=30 * months)`); instants are counted in days. -/
def _add_months (dt : Int) (months : Int) : Int := dt + 30 * months

/-- `_calc_points`: fen → points, `amount_fen // 100 * POINTS_PER_YUAN`
(Python `//` is floor division). -/
def _calc_points (amount_fen : Int) : Int :=
  (Int.fdiv amount_fen 100) * POINTS_PER_YUAN

/-- The string Python renders for a recharge order status inside the
duplicate-callback message. -/
def orderStatusStr : OrderStatus → String
  | .pending => "pending"
  | .paid => "paid"
  | .failed => "failed"
  | .refunded => "refunded"

/-- The string Python renders for a subscription order status inside the
duplicate-callback message. -/
def subscriptionStatusStr : SubscriptionStatus → String
  | .pending => "pending"
  | .active => "active"
  | .expired => "expired"
  | .cancelled => "cancelled"

/-- `create_recharge_order`: validate the amount, then insert a pending
order whose `points_amount` is `_calc_points(amount_fen)`.  The generated
`order_no` (`_gen_order_no`, timestamp + random suffix) is an effect and is
passed in. -/
def create_recharge_order (db : DB) (user_id : Nat) (amount_fen : Int) (order_no : String) :
    DB × Except PyErr RechargeOrder :=
  if amount_fen ≤ 0 then (db, .error (.valueError "支付金额必须大于 0"))
  else
    let order : RechargeOrder :=
      { user_id := user_id
        order_no := order_no
        amount_fen := amount_fen
        points_amount := _calc_points amount_fen
        status := .pending
        wechat_transaction_id := none
        paid_at := none }
    ({ db with recharge_orders := db.recharge_orders ++ [order] }, .ok order)

/-- `create_subscription_order`: reject `free` level, non-positive months,
non-positive amount — in that order — then insert a pending order. -/
def create_subscription_order (db : DB) (user_id : Nat) (level : MembershipLevel)
    (months : Int) (amount_fen : Int) (order_no : String) :
    DB × Except PyErr SubscriptionOrder :=
  if level = MembershipLevel.free then (db, .error (.valueError "不能订阅 free 套餐"))
  else if months ≤ 0 then (db, .error (.valueError "购买月数必须大于 0"))
  else if amount_fen ≤ 0 then (db, .error (.valueError "支付金额必须大于 0"))
  else
    let order : SubscriptionOrder :=
      { user_id := user_id
        order_no := order_no
        level := level
        months := months
        amount_fen := amount_fen
        status := .pending
        wechat_transaction_id := none
        start_at := none
        expire_at := none
        paid_at := none }
    ({ db with subscription_orders := db.subscription_orders ++ [order] }, .ok order)

/-- `handle_recharge_paid`: look the order up; raise before any mutation if
it is missing or non-pending; otherwise commit `status=paid` (first
transaction) and then run `credit_recharge_points` (second, independent
transaction).  The returned `DB` is the state after the transactions that
committed, the returned `Except` the raised error if any. -/
def handle_recharge_paid (db : DB) (order_no : String) (wechat_transaction_id : String)
    (now : Int) : DB × Except PyErr Unit :=
  match findRechargeOrder db order_no with
  | none => (db, .error (.valueError ("充值订单不存在：" ++ order_no)))
  | some order =>
    if order.status ≠ OrderStatus.pending then
      (db, .error (.valueError
        ("订单已处理（当前状态：" ++ orderStatusStr order.status ++ "），忽略重复回调")))
    else
      let paid : RechargeOrder :=
        { order with
            status := .paid
            wechat_transaction_id := some wechat_transaction_id
            paid_at := some now }
      let db1 := updateRechargeOrder db paid
      credit_recharge_points db1 order.user_id order.points_amount order_no

/-- `handle_subscription_paid`: single transaction; raise before any
mutation if the order is missing, non-pending, or the user is missing;
otherwise activate the order and write the recomputed membership to the
user, committing both together. -/
def handle_subscription_paid (db : DB) (order_no : String) (wechat_transaction_id : String)
    (now : Int) : DB × Except PyErr Unit :=
  match findSubscriptionOrder db order_no with
  | none => (db, .error (.valueError ("订阅订单不存在：" ++ order_no)))
  | some order =>
    if order.status ≠ SubscriptionStatus.pending then
      (db, .error (.valueError
        ("订单已处理（当前状态：" ++ subscriptionStatusStr order.status ++ "），忽略重复回调")))
    else
      match findUser db order.user_id with
      | none => (db, .error (.valueError ("用户不存在：" ++ toString order.user_id)))
      | some user =>
        let is_renewal : Bool :=
          decide (user.membership_level = order.level) &&
          (match user.membership_expire_at with
           | some e => decide (now < e)
           | none => false)
        let base : Int := if is_renewal then user.membership_expire_at.getD now else now
        let new_expire := _add_months base order.months
        let order2 : SubscriptionOrder :=
          { order with
              status := .active
              wechat_transaction_id := some wechat_transaction_id
              start_at := some now
              expire_at := some new_expire
              paid_at := some now }
        let user2 : User :=
          { user with
              membership_level := order.level
              membership_expire_at := some new_expire }
        (updateUser (updateSubscriptionOrder db order2) user2, .ok ())

/-- `admin_set_membership`: overwrite the user's membership cache fields. -/
def admin_set_membership (db : DB) (user_id : Nat) (level : MembershipLevel)
    (expire_at : Option Int) : DB × Except PyErr Unit :=
  match findUser db user_id with
  | none => (db, .error (.valueError "用户不存在"))
  | some u =>
    (updateUser db { u with membership_level := level, membership_expire_at := expire_at },
     .ok ())

/-! ## `app/services/wechat_pay.py` -/

/-- The Python values the provider payloads are built from: strings,
integers and nested dicts (`create_h5_order` / `create_native_order` use no
other shapes). -/
inductive Json where
  | str (s : String)
  | num (n : Int)
  | obj (fields : List (String × Json))
deriving Repr

/-- Lower-case hex digit of `n < 16` (used by `json.dumps` control-character
escapes). -/
def hexDigit (n : Nat) : Char :=
  if n < 10 then Char.ofNat (48 + n) else Char.ofNat (87 + n)

/-- `json.dumps` string escaping with `ensure_ascii=False`: escape the
backslash, the double quote, the short control escapes, and remaining
control characters as `\u00XX`; everything else passes through. -/
def jsonEscapeChar (c : Char) : String :=
  if c = Char.ofNat 34 then "\\\""
  else if c = Char.ofNat 92 then "\\\\"
  else if c = Char.ofNat 10 then "\\n"
  else if c = Char.ofNat 13 then "\\r"
  else if c = Char.ofNat 9 then "\\t"
  else if c = Char.ofNat 8 then "\\b"
  else if c = Char.ofNat 12 then "\\f"
  else if c.toNat < 32 then
    "\\u00" ++ String.singleton (hexDigit (c.toNat / 16))
      ++ String.singleton (hexDigit (c.toNat % 16))
  else String.singleton c

def jsonEscape (s : String) : String :=
  s.data.foldl (fun acc c => acc ++ jsonEscapeChar c) ""

mutual

/-- `json.dumps(payload, ensure_ascii=False, separators=(",", ":"))`:
compact serialization with no whitespace outside string contents. -/
def jsonDumps : Json → String
  | .str s => "\"" ++ jsonEscape s ++ "\""
  | .num n => toString n
  | .obj fields => "\x7b" ++ jsonDumpsFields fields ++ "\x7d"

def jsonDumpsFields : List (String × Json) → String
  | [] => ""
  | [(k, v)] => "\"" ++ jsonEscape k ++ "\":" ++ jsonDumps v
  | (k, v) :: kv :: rest =>
      "\"" ++ jsonEscape k ++ "\":" ++ jsonDumps v ++ "," ++ jsonDumpsFields (kv :: rest)

end

/-- `_build_auth_header`: sign the five newline-terminated lines
`METHOD\nURL_PATH\nTIMESTAMP\nNONCE\nBODY\n` and assemble the
`WECHATPAY2-SHA256-RSA2048` authorization header.  `sign_b64` stands for
`base64.b64encode(private_key.sign(message, PKCS1v15(), SHA256()))`
(the `cryptography` / `base64` libraries, external to this repository);
the timestamp and uuid nonce are effects passed in. -/
def _build_auth_header (sign_b64 : String → String) (mchid cert_serial_no : String)
    (ts nonce : String) (method url_path : String) (body : String := "") : String :=
  let message := method ++ "\n" ++ url_path ++ "\n" ++ ts ++ "\n" ++ nonce ++ "\n"
    ++ body ++ "\n"
  let signature := sign_b64 message
  "WECHATPAY2-SHA256-RSA2048 " ++
    "mchid=\"" ++ mchid ++ "\"," ++
    "nonce_str=\"" ++ nonce ++ "\"," ++
    "signature=\"" ++ signature ++ "\"," ++
    "timestamp=\"" ++ ts ++ "\"," ++
    "serial_no=\"" ++ cert_serial_no ++ "\""

/-- The signed HTTP request `_post` sends to the provider. -/
structure HttpRequest where
  url_path : String
  body : String
  authorization : String
  content_type : String
  accept : String
  user_agent : String
deriving Repr

/-- The request-construction part of `_post`: compact-serialize the payload
and sign it into the authorization header.  (Sending the request and
checking the response status are network effects outside this model.) -/
def _post (sign_b64 : String → String) (mchid cert_serial_no : String)
    (ts nonce : String) (path : String) (payload : Json) : HttpRequest :=
  let body := jsonDumps payload
  let auth := _build_auth_header sign_b64 mchid cert_serial_no ts nonce "POST" path body
  { url_path := path
    body := body
    authorization := auth
    content_type := "application/json"
    accept := "application/json"
    user_agent := "AIrchieve/1.0" }

/-- The `create_h5_order` payload. -/
def h5_order_payload (appid mchid description order_no notify_url : String)
    (amount_fen : Int) (client_ip : String) : Json :=
  .obj [("appid", .str appid), ("mchid", .str mchid), ("description", .str description),
        ("out_trade_no", .str order_no), ("notify_url", .str notify_url),
        ("amount", .obj [("total", .num amount_fen), ("currency", .str "CNY")]),
        ("scene_info", .obj [("payer_client_ip", .str client_ip),
                             ("h5_info", .obj [("type", .str "Wap")])])]

/-- The `create_native_order` payload. -/
def native_order_payload (appid mchid description order_no notify_url : String)
    (amount_fen : Int) : Json :=
  .obj [("appid", .str appid), ("mchid", .str mchid), ("description", .str description),
        ("out_trade_no", .str order_no), ("notify_url", .str notify_url),
        ("amount", .obj [("total", .num amount_fen), ("currency", .str "CNY")])]

/-- The `resource` dict of a provider callback (`algorithm` is unused by the
code; `associated_data` may be absent). -/
structure NotifyResource where
  ciphertext : String
  associated_data : Option String
  nonce : String

/-- `decrypt_notify_resource`: base64-decode the ciphertext and decrypt with
AES-256-GCM under the shared API v3 key, the given nonce, and the associated
data (empty string when absent); parse the plaintext as JSON.
`aesgcm_decrypt key nonce ciphertext ad` stands for
`AESGCM(key).decrypt(nonce, ciphertext, ad)` of the `cryptography` library,
returning `none` exactly when the authentication tag does not verify
(`InvalidTag`); `b64decode` stands for `base64.b64decode`; `json_loads` for
`json.loads` of the plaintext into the payload type `α`.  All three are
external libraries, passed as arguments. -/
def decrypt_notify_resource {α : Type}
    (aesgcm_decrypt : String → String → String → String → Option String)
    (b64decode : String → Option String)
    (json_loads : String → Except PyErr α)
    (api_key_v3 : String) (resource : NotifyResource) : Except PyErr α :=
  let key := api_key_v3
  let nonce := resource.nonce
  let ad := resource.associated_data.getD ""
  match b64decode resource.ciphertext with
  | none => .error .binasciiError
  | some ciphertext =>
    match aesgcm_decrypt key nonce ciphertext ad with
    | none => .error .invalidTag
    | some plaintext => json_loads plaintext

/-! ## `app/api/v1/payment_api.py` — webhook endpoints -/

/-- The fields of the decrypted callback business payload that the webhook
handlers read; a `none` field is absent from the dict (`data["k"]` raises
`KeyError`, `data.get("trade_state", "")` defaults to `""`). -/
structure NotifyData where
  out_trade_no : Option String
  transaction_id : Option String
  trade_state : Option String
deriving DecidableEq, Repr

/-- The provider-mandated webhook response body. -/
structure WebhookResponse where
  code : String
  message : String
deriving DecidableEq, Repr

/-- `notify_recharge`: decrypt the callback, extract the fields, settle only
on `trade_state == "SUCCESS"`; any exception in the `try` block is caught
and answered with `code="FAIL"` (which makes the provider retry), everything
else with `code="SUCCESS"`. -/
def notify_recharge
    (aesgcm_decrypt : String → String → String → String → Option String)
    (b64decode : String → Option String)
    (json_loads : String → Except PyErr NotifyData)
    (api_key_v3 : String) (db : DB) (resource : NotifyResource) (now : Int) :
    DB × WebhookResponse :=
  match decrypt_notify_resource aesgcm_decrypt b64decode json_loads api_key_v3 resource with
  | .error e => (db, { code := "FAIL", message := errStr e })
  | .ok data =>
    match data.out_trade_no with
    | none => (db, { code := "FAIL", message := errStr (.keyError "out_trade_no") })
    | some order_no =>
      match data.transaction_id with
      | none => (db, { code := "FAIL", message := errStr (.keyError "transaction_id") })
      | some tx_id =>
        let trade_state := data.trade_state.getD ""
        if trade_state = "SUCCESS" then
          match handle_recharge_paid db order_no tx_id now with
          | (db2, .ok _) => (db2, { code := "SUCCESS", message := "OK" })
          | (db2, .error e) => (db2, { code := "FAIL", message := errStr e })
        else
          (db, { code := "SUCCESS", message := "OK" })

/-- `notify_subscription`: same shape as `notify_recharge`, settling through
`handle_subscription_paid`. -/
def notify_subscription
    (aesgcm_decrypt : String → String → String → String → Option String)
    (b64decode : String → Option String)
    (json_loads : String → Except PyErr NotifyData)
    (api_key_v3 : String) (db : DB) (resource : NotifyResource) (now : Int) :
    DB × WebhookResponse :=
  match decrypt_notify_resource aesgcm_decrypt b64decode json_loads api_key_v3 resource with
  | .error e => (db, { code := "FAIL", message := errStr e })
  | .ok data =>
    match data.out_trade_no with
    | none => (db, { code := "FAIL", message := errStr (.keyError "out_trade_no") })
    | some order_no =>
      match data.transaction_id with
      | none => (db, { code := "FAIL", message := errStr (.keyError "transaction_id") })
      | some tx_id =>
        let trade_state := data.trade_state.getD ""
        if trade_state = "SUCCESS" then
          match handle_subscription_paid db order_no tx_id now with
          | (db2, .ok _) => (db2, { code := "SUCCESS", message := "OK" })
          | (db2, .error e) => (db2, { code := "FAIL", message := errStr e })
        else
          (db, { code := "SUCCESS", message := "OK" })

/-! ## Reachable states and the ledger invariant -/

/-- The ledger rows of one user, in insertion (`created_at`) order. -/
def logsOf (logs : List UserPointsLog) (uid : Nat) : List UserPointsLog :=
  logs.filter (fun l => l.user_id == uid)

/-- Sum of one user's ledger deltas. -/
def sumDeltas (logs : List UserPointsLog) (uid : Nat) : Int :=
  ((logsOf logs uid).map (fun l => l.delta)).sum

/-- The states reachable from an empty store by the billing operations:
user registration (with a fresh autoincrement id) and every mutating
service entry point, at arbitrary arguments.  The webhook endpoints only
ever leave the store unchanged or step it through `handle_recharge_paid` /
`handle_subscription_paid`, so they add no further states. -/
inductive Reachable : DB → Prop where
  | init : Reachable ⟨[], [], [], []⟩
  | createUser {db : DB} {uid : Nat} : Reachable db →
      (∀ u ∈ db.users, u.id ≠ uid) → Reachable (_create_user db uid)
  | consumeCreation {db : DB} {uid : Nat} : Reachable db →
      Reachable (consume_for_creation db uid).1
  | consumePageEdit {db : DB} {uid : Nat} : Reachable db →
      Reachable (consume_for_page_edit db uid).1
  | creditRecharge {db : DB} {uid : Nat} {points : Int} {order_no : String} :
      Reachable db → Reachable (credit_recharge_points db uid points order_no).1
  | adminAdjust {db : DB} {uid : Nat} {delta : Int} {descr : String} :
      Reachable db → Reachable (admin_adjust_points db uid delta descr).1
  | createRecharge {db : DB} {uid : Nat} {amount : Int} {ono : String} :
      Reachable db → Reachable (create_recharge_order db uid amount ono).1
  | createSubscription {db : DB} {uid : Nat} {level : MembershipLevel}
      {months amount : Int} {ono : String} :
      Reachable db → Reachable (create_subscription_order db uid level months amount ono).1
  | handleRecharge {db : DB} {ono tx : String} {now : Int} :
      Reachable db → Reachable (handle_recharge_paid db ono tx now).1
  | handleSubscription {db : DB} {ono tx : String} {now : Int} :
      Reachable db → Reachable (handle_subscription_paid db ono tx now).1
  | adminSetMembership {db : DB} {uid : Nat} {level : MembershipLevel}
      {expire : Option Int} :
      Reachable db → Reachable (admin_set_membership db uid level expire).1

/-- The ledger/cache consistency invariant: user ids are unique, every
ledger row belongs to an existing user, and each user's cached balance is
both the sum of their deltas and the `balance_after` of their last row. -/
def ledgerOk (db : DB) : Prop :=
  (db.users.map (fun u => u.id)).Nodup ∧
  (∀ l ∈ db.points_logs, l.user_id ∈ db.users.map (fun u => u.id)) ∧
  (∀ u ∈ db.users, u.points_balance = sumDeltas db.points_logs u.id ∧
    (logsOf db.points_logs u.id).getLast?.elim (u.points_balance = 0)
      (fun l => l.balance_after = u.points_balance))

theorem map_id_update (l : List User) (u : User) :
    (l.map (fun v => if v.id == u.id then u else v)).map (fun v => v.id)
      = l.map (fun v => v.id) := by
  induction l with
  | nil => rfl
  | cons a t ih =>
    simp only [List.map_cons, ih, List.cons.injEq, and_true]
    by_cases h : a.id = u.id
    · simp [h]
    · simp [h]

theorem updateUser_users (db : DB) (u : User) :
    (updateUser db u).users = db.users.map (fun v => if v.id == u.id then u else v) := rfl

theorem updateUser_logs (db : DB) (u : User) :
    (updateUser db u).points_logs = db.points_logs := rfl

theorem ledgerOk_congr {db db2 : DB} (hu : db2.users = db.users)
    (hl : db2.points_logs = db.points_logs) (h : ledgerOk db) : ledgerOk db2 := by
  unfold ledgerOk at h ⊢
  rw [hu, hl]
  exact h

theorem logsOf_append (logs ls : List UserPointsLog) (uid : Nat) :
    logsOf (logs ++ ls) uid = logsOf logs uid ++ logsOf ls uid := by
  simp [logsOf, List.filter_append]

theorem applyDeltaDB_users (db : DB) (u : User) (δ : Int) (t : PointsLogType)
    (d r : Option String) :
    (applyDeltaDB db u δ t d r).users
      = db.users.map (fun v => if v.id == u.id
          then { u with points_balance := u.points_balance + δ } else v) := rfl

theorem applyDeltaDB_logs (db : DB) (u : User) (δ : Int) (t : PointsLogType)
    (d r : Option String) :
    (applyDeltaDB db u δ t d r).points_logs
      = db.points_logs ++
        [{ user_id := u.id
           delta := δ
           type := t
           description := d
           balance_after := u.points_balance + δ
           related_order_id := r }] := rfl

/-- A committed `_apply_points_delta` transaction preserves the ledger
invariant: the one appended row snapshots the one balance write. -/
theorem ledgerOk_applyDeltaDB {db : DB} {u : User} (hu : u ∈ db.users)
    (δ : Int) (t : PointsLogType) (d r : Option String)
    (h : ledgerOk db) : ledgerOk (applyDeltaDB db u δ t d r) := by
  obtain ⟨hnd, hattr, hinv⟩ := h
  have hids := map_id_update db.users { u with points_balance := u.points_balance + δ }
  refine ⟨?_, ?_, ?_⟩
  · rw [applyDeltaDB_users, hids]
    exact hnd
  · intro l hl
    rw [applyDeltaDB_logs] at hl
    rw [applyDeltaDB_users, hids]
    rcases List.mem_append.1 hl with hl | hl
    · exact hattr l hl
    · have : l = { user_id := u.id
                   delta := δ
                   type := t
                   description := d
                   balance_after := u.points_balance + δ
                   related_order_id := r } := by simpa using hl
      subst this
      exact List.mem_map_of_mem _ hu
  · intro w hw
    rw [applyDeltaDB_users] at hw
    obtain ⟨v, hv, hw⟩ := List.mem_map.1 hw
    rw [applyDeltaDB_logs]
    by_cases hcase : v.id = u.id
    · have hvu : v = u := List.inj_on_of_nodup_map hnd hv hu hcase
      subst hvu
      simp only [hcase, beq_self_eq_true, if_true] at hw
      subst hw
      have hbal := hinv v hv
      constructor
      · show v.points_balance + δ = _
        rw [sumDeltas, logsOf_append]
        have hfil : logsOf [{ user_id := v.id
                              delta := δ
                              type := t
                              description := d
                              balance_after := v.points_balance + δ
                              related_order_id := r }] v.id
            = [{ user_id := v.id
                 delta := δ
                 type := t
                 description := d
                 balance_after := v.points_balance + δ
                 related_order_id := r }] := by
          simp [logsOf]
        rw [hfil]
        simp only [List.map_append, List.sum_append]
        rw [← sumDeltas, ← hbal.1]
        simp
      · rw [logsOf_append]
        have hfil : logsOf [{ user_id := v.id
                              delta := δ
                              type := t
                              description := d
                              balance_after := v.points_balance + δ
                              related_order_id := r }] v.id
            = [{ user_id := v.id
                 delta := δ
                 type := t
                 description := d
                 balance_after := v.points_balance + δ
                 related_order_id := r }] := by
          simp [logsOf]
        rw [hfil, List.getLast?_concat]
        simp [Option.elim]
    · simp only [beq_iff_eq, hcase, if_false] at hw
      subst hw
      have hbal := hinv v hv
      have hfil : logsOf [{ user_id := u.id
                            delta := δ
                            type := t
                            description := d
                            balance_after := u.points_balance + δ
                            related_order_id := r }] v.id = [] := by
        simp [logsOf]
        intro hiff
        exact hcase hiff.symm
      constructor
      · rw [sumDeltas, logsOf_append, hfil, List.append_nil, ← sumDeltas]
        exact hbal.1
      · rw [logsOf_append, hfil, List.append_nil]
        exact hbal.2

/-- Rewriting a user row without touching its id or its cached balance
(free-tier decrement, membership writes) preserves the ledger invariant. -/
theorem ledgerOk_updateUser {db : DB} {u u2 : User} (hu : u ∈ db.users)
    (hid : u2.id = u.id) (hbal : u2.points_balance = u.points_balance)
    (h : ledgerOk db) : ledgerOk (updateUser db u2) := by
  obtain ⟨hnd, hattr, hinv⟩ := h
  have hids := map_id_update db.users u2
  refine ⟨?_, ?_, ?_⟩
  · rw [updateUser_users, hids]
    exact hnd
  · intro l hl
    rw [updateUser_logs] at hl
    rw [updateUser_users, hids]
    exact hattr l hl
  · intro w hw
    rw [updateUser_users] at hw
    obtain ⟨v, hv, hw⟩ := List.mem_map.1 hw
    rw [updateUser_logs]
    by_cases hcase : v.id = u2.id
    · have hvu : v = u := List.inj_on_of_nodup_map hnd hv hu (hcase.trans hid)
      subst hvu
      simp only [hcase, beq_self_eq_true, if_true] at hw
      subst hw
      have hbalv := hinv v hv
      rw [hid, hbal]
      exact hbalv
    · simp only [beq_iff_eq, hcase, if_false] at hw
      subst hw
      exact hinv v hv

theorem findUser_mem {db : DB} {uid : Nat} {u : User} (h : findUser db uid = some u) :
    u ∈ db.users :=
  List.mem_of_find?_eq_some h

theorem ledgerOk_consume_for_creation (db : DB) (uid : Nat) (h : ledgerOk db) :
    ledgerOk (consume_for_creation db uid).1 := by
  unfold consume_for_creation
  cases hf : findUser db uid with
  | none => exact h
  | some u =>
    have hmem := findUser_mem hf
    by_cases hfree : u.free_creation_remaining > 0
    · simp only [hfree, if_true]
      exact ledgerOk_updateUser hmem rfl rfl h
    · simp only [hfree, if_false]
      by_cases hlow : u.points_balance < CREATION_COST
      · simp only [hlow, if_true]
        exact h
      · simp only [hlow, if_false]
        exact ledgerOk_applyDeltaDB hmem _ _ _ _ h

theorem ledgerOk_consume_for_page_edit (db : DB) (uid : Nat) (h : ledgerOk db) :
    ledgerOk (consume_for_page_edit db uid).1 := by
  unfold consume_for_page_edit
  cases hf : findUser db uid with
  | none => exact h
  | some u =>
    have hmem := findUser_mem hf
    by_cases hlow : u.points_balance < PAGE_EDIT_COST
    · simp only [hlow, if_true]
      exact h
    · simp only [hlow, if_false]
      exact ledgerOk_applyDeltaDB hmem _ _ _ _ h

theorem ledgerOk_credit_recharge_points (db : DB) (uid : Nat) (points : Int)
    (order_no : String) (h : ledgerOk db) :
    ledgerOk (credit_recharge_points db uid points order_no).1 := by
  unfold credit_recharge_points
  cases hf : findUser db uid with
  | none => exact h
  | some u => exact ledgerOk_applyDeltaDB (findUser_mem hf) _ _ _ _ h

theorem ledgerOk_admin_adjust_points (db : DB) (uid : Nat) (delta : Int)
    (descr : String) (h : ledgerOk db) :
    ledgerOk (admin_adjust_points db uid delta descr).1 := by
  unfold admin_adjust_points
  cases hf : findUser db uid with
  | none => exact h
  | some u =>
    by_cases hneg : u.points_balance + delta < 0
    · simp only [hneg, if_true]
      exact h
    · simp only [hneg, if_false]
      exact ledgerOk_applyDeltaDB (findUser_mem hf) _ _ _ _ h

theorem ledgerOk_handle_recharge_paid (db : DB) (ono tx : String) (now : Int)
    (h : ledgerOk db) : ledgerOk (handle_recharge_paid db ono tx now).1 := by
  unfold handle_recharge_paid
  cases hf : findRechargeOrder db ono with
  | none => exact h
  | some order =>
    dsimp only
    by_cases hst : order.status ≠ OrderStatus.pending
    · rw [if_pos hst]
      exact h
    · rw [if_neg hst]
      exact ledgerOk_credit_recharge_points _ _ _ _ (ledgerOk_congr rfl rfl h)

theorem ledgerOk_handle_subscription_paid (db : DB) (ono tx : String) (now : Int)
    (h : ledgerOk db) : ledgerOk (handle_subscription_paid db ono tx now).1 := by
  unfold handle_subscription_paid
  cases hf : findSubscriptionOrder db ono with
  | none => exact h
  | some order =>
    dsimp only
    by_cases hst : order.status ≠ SubscriptionStatus.pending
    · rw [if_pos hst]
      exact h
    · rw [if_neg hst]
      cases hu : findUser db order.user_id with
      | none => exact h
      | some user =>
        exact ledgerOk_updateUser (findUser_mem hu) rfl rfl (ledgerOk_congr rfl rfl h)

theorem ledgerOk_admin_set_membership (db : DB) (uid : Nat) (level : MembershipLevel)
    (expire : Option Int) (h : ledgerOk db) :
    ledgerOk (admin_set_membership db uid level expire).1 := by
  unfold admin_set_membership
  cases hf : findUser db uid with
  | none => exact h
  | some u => exact ledgerOk_updateUser (findUser_mem hf) rfl rfl h

theorem create_user_users (db : DB) (uid : Nat) :
    (_create_user db uid).users = db.users ++ [⟨uid, 0, 1, .free, none⟩] := rfl

theorem create_user_logs (db : DB) (uid : Nat) :
    (_create_user db uid).points_logs = db.points_logs := rfl

theorem ledgerOk_create_user {db : DB} {uid : Nat}
    (hfresh : ∀ u ∈ db.users, u.id ≠ uid) (h : ledgerOk db) :
    ledgerOk (_create_user db uid) := by
  obtain ⟨hnd, hattr, hinv⟩ := h
  have hnotin : uid ∉ db.users.map (fun u => u.id) := by
    intro hmem
    obtain ⟨v, hv, hveq⟩ := List.mem_map.1 hmem
    exact hfresh v hv hveq
  refine ⟨?_, ?_, ?_⟩
  · rw [create_user_users, List.map_append, List.nodup_append]
    refine ⟨hnd, by simp, ?_⟩
    intro a ha hb
    simp only [List.map_cons, List.map_nil, List.mem_singleton] at hb
    subst hb
    exact hnotin ha
  · intro l hl
    rw [create_user_logs] at hl
    rw [create_user_users, List.map_append]
    exact List.mem_append_left _ (hattr l hl)
  · intro w hw
    rw [create_user_users] at hw
    rw [create_user_logs]
    rcases List.mem_append.1 hw with hw | hw
    · exact hinv w hw
    · simp only [List.mem_singleton] at hw
      subst hw
      have hempty : logsOf db.points_logs uid = [] := by
        rw [logsOf, List.filter_eq_nil_iff]
        intro l hl
        simp only [beq_iff_eq]
        intro heq
        exact hnotin (heq ▸ hattr l hl)
      constructor
      · show (0 : Int) = sumDeltas db.points_logs uid
        rw [sumDeltas, hempty]
        rfl
      · show (logsOf db.points_logs uid).getLast?.elim ((0 : Int) = 0) _
        rw [hempty]
        simp [Option.elim]

theorem create_recharge_order_state (db : DB) (uid : Nat) (amount : Int) (ono : String) :
    (create_recharge_order db uid amount ono).1.users = db.users ∧
    (create_recharge_order db uid amount ono).1.points_logs = db.points_logs := by
  unfold create_recharge_order
  split
  · exact ⟨rfl, rfl⟩
  · exact ⟨rfl, rfl⟩

theorem create_subscription_order_state (db : DB) (uid : Nat) (level : MembershipLevel)
    (months amount : Int) (ono : String) :
    (create_subscription_order db uid level months amount ono).1.users = db.users ∧
    (create_subscription_order db uid level months amount ono).1.points_logs
      = db.points_logs := by
  unfold create_subscription_order
  split
  · exact ⟨rfl, rfl⟩
  · split
    · exact ⟨rfl, rfl⟩
    · split
      · exact ⟨rfl, rfl⟩
      · exact ⟨rfl, rfl⟩

/-- Replacing the row a keyed `find?` located keeps `find?` pointing at the
replacement, provided the replacement carries the same key. -/
theorem find?_replace {α K : Type} [BEq K] [LawfulBEq K] (key : α → K) {k : K} {a : α}
    (repl : α) {l : List α}
    (h : l.find? (fun r => key r == k) = some a) (hrepl : key repl = key a) :
    (l.map (fun r => if key r == key repl then repl else r)).find?
        (fun r => key r == k) = some repl := by
  have hak : key a = k := by
    have := List.find?_some h
    simpa using this
  induction l with
  | nil => simp at h
  | cons x t ih =>
    by_cases hx : key x = k
    · rw [List.find?_cons_of_pos] at h
      · injection h with h
        subst h
        have hcond : (key x == key repl) = true := by
          simp [hrepl]
        simp only [List.map_cons, hcond, if_true]
        rw [List.find?_cons_of_pos]
        simp [hrepl, hak]
      · simp [hx]
    · rw [List.find?_cons_of_neg] at h
      · have hcond : (key x == key repl) = false := by
          simp only [hrepl, hak, beq_eq_false_iff_ne]
          exact hx
        simp only [List.map_cons, hcond]
        rw [if_neg (by simp)]
        rw [List.find?_cons_of_neg]
        · exact ih h
        · simp [hx]
      · simp [hx]

theorem credit_recharge_points_orders (db : DB) (uid : Nat) (points : Int) (ono : String) :
    (credit_recharge_points db uid points ono).1.recharge_orders = db.recharge_orders := by
  unfold credit_recharge_points
  cases findUser db uid with
  | none => rfl
  | some u => rfl

theorem updateUser_subscription_orders (db : DB) (u : User) :
    (updateUser db u).subscription_orders = db.subscription_orders := rfl

theorem findSubscriptionOrder_update (db : DB) (o o2 : SubscriptionOrder) (u2 : User)
    (ono : String) (hf : findSubscriptionOrder db ono = some o)
    (heq : o2.order_no = o.order_no) :
    findSubscriptionOrder (updateUser (updateSubscriptionOrder db o2) u2) ono
      = some o2 := by
  unfold findSubscriptionOrder
  rw [updateUser_subscription_orders]
  unfold updateSubscriptionOrder
  dsimp only
  exact find?_replace (fun r : SubscriptionOrder => r.order_no) o2 hf heq

theorem findUser_update_after_suborder (db : DB) (o2 : SubscriptionOrder) (u u2 : User)
    (uid : Nat) (hu : findUser db uid = some u) (hid : u2.id = u.id) :
    findUser (updateUser (updateSubscriptionOrder db o2) u2) uid = some u2 := by
  unfold findUser updateUser
  dsimp only
  have hu2 : (updateSubscriptionOrder db o2).users.find? (fun v => v.id == uid) = some u := hu
  exact find?_replace (fun v : User => v.id) u2 hu2 hid

/-- After a successful `handle_recharge_paid`, the order is on file with
status `paid`. -/
theorem handle_recharge_paid_ok {db db1 : DB} {ono tx : String} {now : Int}
    (hok : handle_recharge_paid db ono tx now = (db1, .ok ())) :
    ∃ o2 : RechargeOrder,
      findRechargeOrder db1 ono = some o2 ∧ o2.status = OrderStatus.paid := by
  unfold handle_recharge_paid at hok
  cases hf : findRechargeOrder db ono with
  | none =>
    rw [hf] at hok
    dsimp only at hok
    have h2 := congrArg Prod.snd hok
    simp at h2
  | some o =>
    rw [hf] at hok
    dsimp only at hok
    by_cases hst : o.status ≠ OrderStatus.pending
    · rw [if_pos hst] at hok
      have h2 := congrArg Prod.snd hok
      simp at h2
    · rw [if_neg hst] at hok
      have hd1 := congrArg Prod.fst hok
      dsimp only at hd1
      have hords : db1.recharge_orders
          = db.recharge_orders.map (fun r =>
              if r.order_no == o.order_no
              then { o with status := .paid, wechat_transaction_id := some tx, paid_at := some now }
              else r) := by
        rw [← hd1, credit_recharge_points_orders]
        rfl
      refine ⟨{ o with status := .paid, wechat_transaction_id := some tx, paid_at := some now },
        ?_, rfl⟩
      unfold findRechargeOrder
      rw [hords]
      have hf2 : db.recharge_orders.find? (fun r => r.order_no == ono) = some o := hf
      exact find?_replace (fun r : RechargeOrder => r.order_no)
        { o with status := .paid, wechat_transaction_id := some tx, paid_at := some now }
        hf2 rfl

/-- After a successful `handle_subscription_paid`, the order is on file with
status `active`. -/
theorem handle_subscription_paid_ok {db db1 : DB} {ono tx : String} {now : Int}
    (hok : handle_subscription_paid db ono tx now = (db1, .ok ())) :
    ∃ o2 : SubscriptionOrder,
      findSubscriptionOrder db1 ono = some o2 ∧ o2.status = SubscriptionStatus.active := by
  unfold handle_subscription_paid at hok
  cases hf : findSubscriptionOrder db ono with
  | none =>
    rw [hf] at hok
    dsimp only at hok
    have h2 := congrArg Prod.snd hok
    simp at h2
  | some o =>
    rw [hf] at hok
    dsimp only at hok
    by_cases hst : o.status ≠ SubscriptionStatus.pending
    · rw [if_pos hst] at hok
      have h2 := congrArg Prod.snd hok
      simp at h2
    · rw [if_neg hst] at hok
      cases hu : findUser db o.user_id with
      | none =>
        rw [hu] at hok
        dsimp only at hok
        have h2 := congrArg Prod.snd hok
        simp at h2
      | some user =>
        rw [hu] at hok
        dsimp only at hok
        have hd1 := congrArg Prod.fst hok
        dsimp only at hd1
        subst hd1
        exact ⟨_, findSubscriptionOrder_update db o _ _ ono hf rfl, rfl⟩

/-- Every reachable store satisfies the ledger invariant. -/
theorem ledgerOk_reachable {db : DB} (h : Reachable db) : ledgerOk db := by
  induction h with
  | init => refine ⟨by simp, by simp, by simp⟩
  | createUser _ hfresh ih => exact ledgerOk_create_user hfresh ih
  | consumeCreation _ ih => exact ledgerOk_consume_for_creation _ _ ih
  | consumePageEdit _ ih => exact ledgerOk_consume_for_page_edit _ _ ih
  | creditRecharge _ ih => exact ledgerOk_credit_recharge_points _ _ _ _ ih
  | adminAdjust _ ih => exact ledgerOk_admin_adjust_points _ _ _ _ ih
  | createRecharge _ ih =>
    exact ledgerOk_congr (create_recharge_order_state _ _ _ _).1
      (create_recharge_order_state _ _ _ _).2 ih
  | createSubscription _ ih =>
    exact ledgerOk_congr (create_subscription_order_state _ _ _ _ _ _).1
      (create_subscription_order_state _ _ _ _ _ _).2 ih
  | handleRecharge _ ih => exact ledgerOk_handle_recharge_paid _ _ _ _ ih
  | handleSubscription _ ih => exact ledgerOk_handle_subscription_paid _ _ _ _ ih
  | adminSetMembership _ ih => exact ledgerOk_admin_set_membership _ _ _ _ ih

/-! ## Claim theorems -/

/-- **C1**: settlement of a non-pending recharge or subscription order
raises the already-processed `ValueError` before any mutation, returning
the store unchanged; consequently a second settlement of the same
`order_no` after a successful one is rejected with the store exactly as the
first settlement left it, so points are credited (membership activated)
exactly once. -/
theorem settlement_already_processed_idempotent
    (db : DB) (order_no tx tx2 : String) (now now2 : Int) :
    (∀ o : RechargeOrder, findRechargeOrder db order_no = some o →
        o.status ≠ OrderStatus.pending →
        handle_recharge_paid db order_no tx now
          = (db, .error (.valueError
              ("订单已处理（当前状态：" ++ orderStatusStr o.status ++ "），忽略重复回调")))) ∧
    (∀ o : SubscriptionOrder, findSubscriptionOrder db order_no = some o →
        o.status ≠ SubscriptionStatus.pending →
        handle_subscription_paid db order_no tx now
          = (db, .error (.valueError
              ("订单已处理（当前状态：" ++ subscriptionStatusStr o.status ++ "），忽略重复回调")))) ∧
    (∀ db1 : DB, handle_recharge_paid db order_no tx now = (db1, .ok ()) →
        ∃ m, handle_recharge_paid db1 order_no tx2 now2 = (db1, .error (.valueError m))) ∧
    (∀ db1 : DB, handle_subscription_paid db order_no tx now = (db1, .ok ()) →
        ∃ m, handle_subscription_paid db1 order_no tx2 now2
          = (db1, .error (.valueError m))) := by
  refine ⟨?_, ?_, ?_, ?_⟩
  · intro o hf hst
    unfold handle_recharge_paid
    rw [hf]
    dsimp only
    rw [if_pos hst]
  · intro o hf hst
    unfold handle_subscription_paid
    rw [hf]
    dsimp only
    rw [if_pos hst]
  · intro db1 hok
    obtain ⟨o2, hfind, hpaid⟩ := handle_recharge_paid_ok hok
    refine ⟨"订单已处理（当前状态：" ++ orderStatusStr o2.status ++ "），忽略重复回调", ?_⟩
    unfold handle_recharge_paid
    rw [hfind]
    dsimp only
    rw [if_pos (by rw [hpaid]; decide)]
  · intro db1 hok
    obtain ⟨o2, hfind, hact⟩ := handle_subscription_paid_ok hok
    refine ⟨"订单已处理（当前状态：" ++ subscriptionStatusStr o2.status ++ "），忽略重复回调", ?_⟩
    unfold handle_subscription_paid
    rw [hfind]
    dsimp only
    rw [if_pos (by rw [hact]; decide)]

/-- A pending recharge order awaiting its first settlement. -/
def dbC1 : DB :=
  ⟨[⟨7, 0, 1, .free, none⟩], [⟨7, "RC1", 1000, 30, .pending, none, none⟩], [], []⟩

/-- The store `dbC1` after the first successful settlement of `RC1`. -/
def dbC1paid : DB :=
  ⟨[⟨7, 30, 1, .free, none⟩], [⟨7, "RC1", 1000, 30, .paid, some "wx1", some 0⟩], [],
   [⟨7, 30, .recharge, some "微信支付充值，订单号 RC1", 30, some "RC1"⟩]⟩

theorem settlement_already_processed_idempotent_witness :
    handle_recharge_paid dbC1 "RC1" "wx1" 0 = (dbC1paid, .ok ()) ∧
    (∃ m, handle_recharge_paid dbC1paid "RC1" "wx2" 1
      = (dbC1paid, .error (.valueError m))) :=
  ⟨by decide,
   (settlement_already_processed_idempotent dbC1 "RC1" "wx1" "wx2" 0 1).2.2.1
     dbC1paid (by decide)⟩

/-- **C2**: every ledger write appends exactly one row whose `balance_after`
is the previous cached balance plus the delta and sets the cache to that
value (proved as the preservation lemma `ledgerOk_applyDeltaDB`); therefore,
for every user at every reachable state, the cached `points_balance` equals
the sum of all that user's deltas and equals the last ledger row's
`balance_after` (and is 0 when the user has no rows). -/
theorem points_ledger_invariant (db : DB) (u : User)
    (h : Reachable db) (hu : u ∈ db.users) :
    u.points_balance = sumDeltas db.points_logs u.id ∧
    (logsOf db.points_logs u.id).getLast?.elim (u.points_balance = 0)
      (fun l => l.balance_after = u.points_balance) :=
  (ledgerOk_reachable h).2.2 u hu

/-- Concrete state for the C2 witness: register user 1, credit 30 points. -/
def dbC2 : DB := (credit_recharge_points (_create_user ⟨[], [], [], []⟩ 1) 1 30 "RC1").1

theorem points_ledger_invariant_witness :
    Reachable dbC2 ∧
    (⟨1, 30, 1, .free, none⟩ : User) ∈ dbC2.users ∧
    ((⟨1, 30, 1, .free, none⟩ : User).points_balance = sumDeltas dbC2.points_logs 1 ∧
      (logsOf dbC2.points_logs 1).getLast?.elim
        ((⟨1, 30, 1, .free, none⟩ : User).points_balance = 0)
        (fun l => l.balance_after = (⟨1, 30, 1, .free, none⟩ : User).points_balance)) :=
  ⟨Reachable.creditRecharge (Reachable.createUser Reachable.init (by simp [DB.users])),
   by decide,
   points_ledger_invariant dbC2 ⟨1, 30, 1, .free, none⟩
     (Reachable.creditRecharge (Reachable.createUser Reachable.init (by simp [DB.users])))
     (by decide)⟩

/-- **C3**: for every positive `amount_fen`, `create_recharge_order`
succeeds with `points_amount = floor(amount_fen / 100) * POINTS_PER_YUAN`
and `POINTS_PER_YUAN = 3`. -/
theorem recharge_points_conversion (db : DB) (uid : Nat) (amount_fen : Int)
    (order_no : String) (h : 0 < amount_fen) :
    ∃ order : RechargeOrder,
      (create_recharge_order db uid amount_fen order_no).2 = .ok order ∧
      order.points_amount = Int.fdiv amount_fen 100 * POINTS_PER_YUAN ∧
      POINTS_PER_YUAN = 3 := by
  unfold create_recharge_order
  rw [if_neg (by omega)]
  exact ⟨_, rfl, rfl, rfl⟩

theorem recharge_points_conversion_witness :
    (0 : Int) < 1000 ∧
    (∃ order : RechargeOrder,
      (create_recharge_order ⟨[], [], [], []⟩ 1 1000 "RC1").2 = .ok order ∧
      order.points_amount = Int.fdiv 1000 100 * POINTS_PER_YUAN ∧
      POINTS_PER_YUAN = 3) ∧
    _calc_points 1000 = 30 :=
  ⟨by decide, recharge_points_conversion ⟨[], [], [], []⟩ 1 1000 "RC1" (by decide), by decide⟩

/-- **C7**: decryption fails closed — whenever the AEAD tag check rejects
(the primitive returns `none`), `decrypt_notify_resource` raises
`InvalidTag` and returns no plaintext; and an absent `associated_data` is
treated exactly as the empty string. -/
theorem decrypt_notify_fail_closed {α : Type}
    (aesgcm_decrypt : String → String → String → String → Option String)
    (b64decode : String → Option String) (json_loads : String → Except PyErr α)
    (api_key : String) (res : NotifyResource) :
    (∀ ct, b64decode res.ciphertext = some ct →
      aesgcm_decrypt api_key res.nonce ct (res.associated_data.getD "") = none →
      decrypt_notify_resource aesgcm_decrypt b64decode json_loads api_key res
        = .error PyErr.invalidTag) ∧
    decrypt_notify_resource aesgcm_decrypt b64decode json_loads api_key
        { res with associated_data := none }
      = decrypt_notify_resource aesgcm_decrypt b64decode json_loads api_key
        { res with associated_data := some "" } := by
  constructor
  · intro ct hct htag
    unfold decrypt_notify_resource
    rw [hct]
    dsimp only
    rw [htag]
  · rfl

theorem decrypt_notify_fail_closed_witness :
    ((fun s : String => some s) "c3RhbXBlcmVk" = some "c3RhbXBlcmVk") ∧
    decrypt_notify_resource (fun _ _ _ _ => none) (fun s => some s)
        (fun _ => (.error (.valueError "unreached") : Except PyErr NotifyData))
        "k" ⟨"c3RhbXBlcmVk", none, "n"⟩
      = .error PyErr.invalidTag :=
  ⟨rfl,
   (decrypt_notify_fail_closed (fun _ _ _ _ => none) (fun s => some s)
      (fun _ => (.error (.valueError "unreached") : Except PyErr NotifyData))
      "k" ⟨"c3RhbXBlcmVk", none, "n"⟩).1 "c3RhbXBlcmVk" rfl rfl⟩

/-- **C8**: `create_subscription_order` rejects `level=free`, `months ≤ 0`
and `amount_fen ≤ 0` with a `ValueError` and leaves the store untouched;
`create_recharge_order` likewise rejects `amount_fen ≤ 0`. -/
theorem order_creation_validation (db : DB) (uid : Nat) (level : MembershipLevel)
    (months amount_fen : Int) (ono : String) :
    ((level = MembershipLevel.free ∨ months ≤ 0 ∨ amount_fen ≤ 0) →
      (create_subscription_order db uid level months amount_fen ono).1 = db ∧
      ∃ m, (create_subscription_order db uid level months amount_fen ono).2
        = .error (.valueError m)) ∧
    (amount_fen ≤ 0 →
      create_recharge_order db uid amount_fen ono
        = (db, .error (.valueError "支付金额必须大于 0"))) := by
  constructor
  · intro hbad
    unfold create_subscription_order
    by_cases h1 : level = MembershipLevel.free
    · rw [if_pos h1]
      exact ⟨rfl, _, rfl⟩
    · rw [if_neg h1]
      by_cases h2 : months ≤ 0
      · rw [if_pos h2]
        exact ⟨rfl, _, rfl⟩
      · rw [if_neg h2]
        have h3 : amount_fen ≤ 0 := by
          rcases hbad with h | h | h
          · exact absurd h h1
          · exact absurd h h2
          · exact h
        rw [if_pos h3]
        exact ⟨rfl, _, rfl⟩
  · intro hle
    unfold create_recharge_order
    rw [if_pos hle]

theorem order_creation_validation_witness :
    ((MembershipLevel.free = MembershipLevel.free ∨ (1 : Int) ≤ 0 ∨ (-1 : Int) ≤ 0) ∧
      ((-1 : Int) ≤ 0)) ∧
    ((create_subscription_order ⟨[], [], [], []⟩ 1 .free 1 (-1) "S1").1 = ⟨[], [], [], []⟩ ∧
      ∃ m, (create_subscription_order ⟨[], [], [], []⟩ 1 .free 1 (-1) "S1").2
        = .error (.valueError m)) ∧
    create_recharge_order ⟨[], [], [], []⟩ 1 (-1) "S1"
      = (⟨[], [], [], []⟩, .error (.valueError "支付金额必须大于 0")) :=
  ⟨⟨Or.inl rfl, by decide⟩,
   (order_creation_validation ⟨[], [], [], []⟩ 1 .free 1 (-1) "S1").1 (Or.inl rfl),
   (order_creation_validation ⟨[], [], [], []⟩ 1 .free 1 (-1) "S1").2 (by decide)⟩

/-- **C9**: the string handed to the RSA-PKCS#1v1.5-SHA256 signer is exactly
the five newline-terminated lines METHOD, URL_PATH, TIMESTAMP, NONCE, BODY
with the body the compact (no extra whitespace) JSON serialization of the
payload, and the authorization header carries the scheme identifier,
merchant id, nonce, base64 signature, timestamp and certificate serial; a
sample payload shows the compact serialization explicitly. -/
theorem wechat_request_signature_format (sign_b64 : String → String)
    (mchid serial ts nonce path : String) (payload : Json) :
    (_post sign_b64 mchid serial ts nonce path payload).body = jsonDumps payload ∧
    (_post sign_b64 mchid serial ts nonce path payload).authorization
      = "WECHATPAY2-SHA256-RSA2048 " ++
        "mchid=\"" ++ mchid ++ "\"," ++
        "nonce_str=\"" ++ nonce ++ "\"," ++
        "signature=\""
          ++ sign_b64 ("POST" ++ "\n" ++ path ++ "\n" ++ ts ++ "\n" ++ nonce ++ "\n"
              ++ jsonDumps payload ++ "\n") ++ "\"," ++
        "timestamp=\"" ++ ts ++ "\"," ++
        "serial_no=\"" ++ serial ++ "\"" ∧
    jsonDumps (native_order_payload "wx1" "m1" "充值" "RC1" "https://n" 1000)
      = "\x7b\"appid\":\"wx1\",\"mchid\":\"m1\",\"description\":\"充值\",\"out_trade_no\":\"RC1\",\"notify_url\":\"https://n\",\"amount\":\x7b\"total\":1000,\"currency\":\"CNY\"\x7d\x7d" :=
  ⟨rfl, rfl, by decide⟩

/-- Discriminates the `InsufficientPointsError` exception class from every
other outcome (what an API layer's `except InsufficientPointsError` sees). -/
def isInsufficientPointsErr : Except PyErr Unit → Bool
  | .error (.insufficientPoints _) => true
  | _ => false

/-- A user with balance 5 and no free creations left. -/
def dbC6 : DB := ⟨[⟨1, 5, 0, .free, none⟩], [], [], []⟩

/-- Counterexample to **C6** as stated: with balance 5 and
`free_creation_remaining = 0`, `consume_for_creation` raises a plain
`ValueError` — not the distinguishable `InsufficientPointsError`, which only
the read-only `check_creation_points` raises — though it does leave the
store unchanged. -/
theorem consume_creation_not_distinguishable_cex :
    (consume_for_creation dbC6 1).2
      = .error (.valueError "积分不足，创作需要 10 积分，当前余额 5") ∧
    isInsufficientPointsErr (consume_for_creation dbC6 1).2 = false ∧
    check_creation_points dbC6 1
      = .error (.insufficientPoints "积分不足，创作需要 10 积分，当前余额 5") ∧
    (consume_for_creation dbC6 1).1 = dbC6 := by
  refine ⟨by decide, by decide, by decide, by decide⟩

/-- **C6** (amended): with `free_creation_remaining = 0` and balance below
the creation cost of 10, `consume_for_creation` fails with a plain
`ValueError` (not the distinguishable `InsufficientPointsError`, which is
raised only by the check functions) and leaves the store unchanged; with
`free_creation_remaining > 0` it decrements exactly one free unit, writes no
ledger row, and leaves `points_balance` unchanged. -/
theorem consume_creation_behaviour (db : DB) (uid : Nat) (u : User)
    (hu : findUser db uid = some u) :
    (u.free_creation_remaining = 0 → u.points_balance < CREATION_COST →
      consume_for_creation db uid
        = (db, .error (.valueError ("积分不足，创作需要 " ++ toString CREATION_COST
            ++ " 积分，当前余额 " ++ toString u.points_balance)))) ∧
    (0 < u.free_creation_remaining →
      consume_for_creation db uid
        = (updateUser db { u with free_creation_remaining := u.free_creation_remaining - 1 },
           .ok ()) ∧
      (consume_for_creation db uid).1.points_logs = db.points_logs ∧
      findUser (consume_for_creation db uid).1 uid
        = some { u with free_creation_remaining := u.free_creation_remaining - 1 } ∧
      ({ u with free_creation_remaining := u.free_creation_remaining - 1 } : User).points_balance
        = u.points_balance) := by
  constructor
  · intro h0 hlow
    unfold consume_for_creation
    rw [hu]
    dsimp only
    rw [if_neg (by omega), if_pos hlow]
  · intro hpos
    have hred : consume_for_creation db uid
        = (updateUser db { u with free_creation_remaining := u.free_creation_remaining - 1 },
           .ok ()) := by
      unfold consume_for_creation
      rw [hu]
      dsimp only
      rw [if_pos hpos]
    refine ⟨hred, ?_, ?_, rfl⟩
    · rw [hred]
      rfl
    · rw [hred]
      unfold findUser updateUser
      dsimp only
      have hu2 : db.users.find? (fun v => v.id == uid) = some u := hu
      exact find?_replace (fun v : User => v.id)
        { u with free_creation_remaining := u.free_creation_remaining - 1 } hu2 rfl

theorem consume_creation_behaviour_witness :
    findUser ⟨[⟨1, 7, 2, .free, none⟩], [], [], []⟩ 1 = some ⟨1, 7, 2, .free, none⟩ ∧
    (0 : Int) < 2 ∧
    (consume_for_creation ⟨[⟨1, 7, 2, .free, none⟩], [], [], []⟩ 1
        = (updateUser ⟨[⟨1, 7, 2, .free, none⟩], [], [], []⟩ ⟨1, 7, 1, .free, none⟩,
           .ok ()) ∧
      (consume_for_creation ⟨[⟨1, 7, 2, .free, none⟩], [], [], []⟩ 1).1.points_logs = [] ∧
      findUser (consume_for_creation ⟨[⟨1, 7, 2, .free, none⟩], [], [], []⟩ 1).1 1
        = some ⟨1, 7, 1, .free, none⟩ ∧
      (⟨1, 7, 1, .free, none⟩ : User).points_balance = 7) :=
  ⟨by decide, by decide,
   (consume_creation_behaviour ⟨[⟨1, 7, 2, .free, none⟩], [], [], []⟩ 1
      ⟨1, 7, 2, .free, none⟩ (by decide)).2 (by decide)⟩

/-- A user and an already-paid recharge order, as left behind by a first
successful settlement. -/
def dbC5 : DB :=
  ⟨[⟨7, 30, 1, .free, none⟩],
   [⟨7, "RC20260101000000AAAAAA", 1000, 30, .paid, some "wx0", some 0⟩], [], []⟩

/-- **C4**: settling a pending subscription order writes the same new
expiry to the order and to the user; it is
`current_expire_at + 30 * months` days when the user's level equals the
order's level and the current expiry is strictly after `now` (same-tier
renewal), and `now + 30 * months` days in every other case (upgrade,
downgrade, first purchase, lapsed membership), one month being uniformly
30 days. -/
theorem subscription_expiry_calculation (db : DB) (order_no tx : String) (now : Int)
    (order : SubscriptionOrder) (user : User)
    (ho : findSubscriptionOrder db order_no = some order)
    (hs : order.status = SubscriptionStatus.pending)
    (hu : findUser db order.user_id = some user) :
    ∃ order2 : SubscriptionOrder, ∃ user2 : User,
      findSubscriptionOrder (handle_subscription_paid db order_no tx now).1 order_no
        = some order2 ∧
      findUser (handle_subscription_paid db order_no tx now).1 order.user_id
        = some user2 ∧
      ((user.membership_level = order.level ∧
          (∃ e, user.membership_expire_at = some e ∧ now < e)) →
        ∃ e, user.membership_expire_at = some e ∧
          order2.expire_at = some (e + 30 * order.months) ∧
          user2.membership_expire_at = some (e + 30 * order.months)) ∧
      (¬(user.membership_level = order.level ∧
          (∃ e, user.membership_expire_at = some e ∧ now < e)) →
        order2.expire_at = some (now + 30 * order.months) ∧
        user2.membership_expire_at = some (now + 30 * order.months)) := by
  unfold handle_subscription_paid
  rw [ho]
  dsimp only
  rw [if_neg (not_ne_iff.mpr hs), hu]
  dsimp only
  by_cases hren : user.membership_level = order.level ∧
      (∃ e, user.membership_expire_at = some e ∧ now < e)
  · obtain ⟨hlev, e, hexp, hlt⟩ := hren
    rw [hexp]
    dsimp only
    rw [if_pos (by simp [hlev, hlt])]
    simp only [Option.getD_some]
    refine ⟨_, _, findSubscriptionOrder_update db order _ _ order_no ho rfl,
      findUser_update_after_suborder db _ user _ order.user_id hu rfl, ?_, ?_⟩
    · intro _
      exact ⟨e, rfl, rfl, rfl⟩
    · intro hcon
      exact absurd ⟨hlev, e, rfl, hlt⟩ hcon
  · have hcond : ¬((decide (user.membership_level = order.level) &&
        (match user.membership_expire_at with
         | some e => decide (now < e)
         | none => false)) = true) := by
      intro h
      rw [Bool.and_eq_true] at h
      obtain ⟨h1, h2⟩ := h
      rw [decide_eq_true_eq] at h1
      apply hren
      refine ⟨h1, ?_⟩
      cases hexp : user.membership_expire_at with
      | none =>
        rw [hexp] at h2
        simp at h2
      | some e =>
        rw [hexp] at h2
        simp only [decide_eq_true_eq] at h2
        exact ⟨e, rfl, h2⟩
    rw [if_neg hcond]
    refine ⟨_, _, findSubscriptionOrder_update db order _ _ order_no ho rfl,
      findUser_update_after_suborder db _ user _ order.user_id hu rfl, ?_, ?_⟩
    · intro h
      exact absurd h hren
    · intro _
      exact ⟨rfl, rfl⟩

/-- A `pro` user with expiry 100 and a pending one-month `pro` renewal. -/
def dbC4 : DB :=
  ⟨[⟨3, 0, 1, .pro, some 100⟩], [],
   [⟨3, "SUB1", .pro, 1, 3000, .pending, none, none, none, none⟩], []⟩

theorem subscription_expiry_calculation_witness :
    findSubscriptionOrder dbC4 "SUB1"
      = some ⟨3, "SUB1", .pro, 1, 3000, .pending, none, none, none, none⟩ ∧
    (⟨3, "SUB1", .pro, 1, 3000, .pending, none, none, none, none⟩ :
        SubscriptionOrder).status = SubscriptionStatus.pending ∧
    findUser dbC4 3 = some ⟨3, 0, 1, .pro, some 100⟩ ∧
    (∃ order2 : SubscriptionOrder, ∃ user2 : User,
      findSubscriptionOrder (handle_subscription_paid dbC4 "SUB1" "wx1" 90).1 "SUB1"
        = some order2 ∧
      findUser (handle_subscription_paid dbC4 "SUB1" "wx1" 90).1 3 = some user2 ∧
      (((⟨3, 0, 1, .pro, some 100⟩ : User).membership_level = MembershipLevel.pro ∧
          (∃ e, (⟨3, 0, 1, .pro, some 100⟩ : User).membership_expire_at = some e ∧
            (90 : Int) < e)) →
        ∃ e, (⟨3, 0, 1, .pro, some 100⟩ : User).membership_expire_at = some e ∧
          order2.expire_at = some (e + 30 * 1) ∧
          user2.membership_expire_at = some (e + 30 * 1)) ∧
      (¬((⟨3, 0, 1, .pro, some 100⟩ : User).membership_level = MembershipLevel.pro ∧
          (∃ e, (⟨3, 0, 1, .pro, some 100⟩ : User).membership_expire_at = some e ∧
            (90 : Int) < e)) →
        order2.expire_at = some (90 + 30 * 1) ∧
        user2.membership_expire_at = some (90 + 30 * 1))) :=
  ⟨by decide, by decide, by decide,
   subscription_expiry_calculation dbC4 "SUB1" "wx1" 90
     ⟨3, "SUB1", .pro, 1, 3000, .pending, none, none, none, none⟩
     ⟨3, 0, 1, .pro, some 100⟩ (by decide) (by decide) (by decide)⟩

/-- **C5** (code bug): a second `trade_state=SUCCESS` callback for the
already-paid order is answered with `code="FAIL"`, not `"SUCCESS"` — the
already-processed `ValueError` raised inside `handle_recharge_paid` falls
into the handler's generic `except Exception` branch, so the idempotency
short-circuit is *not* swallowed as success (the settlement itself is a
no-op: the store is unchanged). -/
theorem notify_recharge_duplicate_returns_fail :
    notify_recharge (fun _ _ ct _ => some ct) (fun s => some s)
        (fun _ => .ok ⟨some "RC20260101000000AAAAAA", some "wx1", some "SUCCESS"⟩)
        "key" dbC5 ⟨"ct", none, "nonce"⟩ 5
      = (dbC5,
         { code := "FAIL"
           message := "订单已处理（当前状态：paid），忽略重复回调" }) := by
  decide

/-- Counterexample to **C10** as stated: a body that decrypts successfully
and whose `trade_state` is `"CLOSED"` but which lacks the `out_trade_no`
key is answered `FAIL` (the `KeyError` from `data["out_trade_no"]`, read
before the `trade_state` test, is caught by the generic handler), not
`SUCCESS` — though the store is indeed left unchanged. -/
theorem notify_non_success_missing_key_cex :
    (notify_recharge (fun _ _ ct _ => some ct) (fun s => some s)
        (fun _ => .ok ⟨none, none, some "CLOSED"⟩) "key"
        ⟨[], [], [], []⟩ ⟨"ct", none, "n"⟩ 0).2.code = "FAIL" ∧
    (notify_subscription (fun _ _ ct _ => some ct) (fun s => some s)
        (fun _ => .ok ⟨none, none, some "CLOSED"⟩) "key"
        ⟨[], [], [], []⟩ ⟨"ct", none, "n"⟩ 0).2.code = "FAIL" ∧
    (notify_recharge (fun _ _ ct _ => some ct) (fun s => some s)
        (fun _ => .ok ⟨none, none, some "CLOSED"⟩) "key"
        ⟨[], [], [], []⟩ ⟨"ct", none, "n"⟩ 0).1 = ⟨[], [], [], []⟩ := by
  refine ⟨by decide, by decide, by decide⟩

/-- **C10** (amended): for every webhook body that decrypts successfully,
contains `out_trade_no` and `transaction_id`, and whose `trade_state` is
anything other than `"SUCCESS"` (including absent), both webhook handlers
perform no mutation at all and respond `{"code": "SUCCESS", "message":
"OK"}`. -/
theorem notify_non_success_no_mutation
    (aesgcm_decrypt : String → String → String → String → Option String)
    (b64decode : String → Option String)
    (json_loads : String → Except PyErr NotifyData)
    (api_key : String) (db : DB) (res : NotifyResource) (now : Int)
    (data : NotifyData) (o t : String)
    (hdec : decrypt_notify_resource aesgcm_decrypt b64decode json_loads api_key res
      = .ok data)
    (ho : data.out_trade_no = some o) (ht : data.transaction_id = some t)
    (hts : data.trade_state.getD "" ≠ "SUCCESS") :
    notify_recharge aesgcm_decrypt b64decode json_loads api_key db res now
      = (db, { code := "SUCCESS", message := "OK" }) ∧
    notify_subscription aesgcm_decrypt b64decode json_loads api_key db res now
      = (db, { code := "SUCCESS", message := "OK" }) := by
  constructor
  · unfold notify_recharge
    rw [hdec]
    dsimp only
    rw [ho]
    dsimp only
    rw [ht]
    dsimp only
    rw [if_neg hts]
  · unfold notify_subscription
    rw [hdec]
    dsimp only
    rw [ho]
    dsimp only
    rw [ht]
    dsimp only
    rw [if_neg hts]

theorem notify_non_success_no_mutation_witness :
    decrypt_notify_resource (fun _ _ ct _ => some ct) (fun s => some s)
        (fun _ => (.ok ⟨some "RC9", some "wx9", some "CLOSED"⟩ : Except PyErr NotifyData))
        "key" ⟨"ct", none, "n"⟩
      = .ok ⟨some "RC9", some "wx9", some "CLOSED"⟩ ∧
    (notify_recharge (fun _ _ ct _ => some ct) (fun s => some s)
        (fun _ => .ok ⟨some "RC9", some "wx9", some "CLOSED"⟩) "key"
        ⟨[], [], [], []⟩ ⟨"ct", none, "n"⟩ 0
      = (⟨[], [], [], []⟩, { code := "SUCCESS", message := "OK" }) ∧
    notify_subscription (fun _ _ ct _ => some ct) (fun s => some s)
        (fun _ => .ok ⟨some "RC9", some "wx9", some "CLOSED"⟩) "key"
        ⟨[], [], [], []⟩ ⟨"ct", none, "n"⟩ 0
      = (⟨[], [], [], []⟩, { code := "SUCCESS", message := "OK" })) :=
  ⟨rfl,
   notify_non_success_no_mutation (fun _ _ ct _ => some ct) (fun s => some s)
     (fun _ => .ok ⟨some "RC9", some "wx9", some "CLOSED"⟩) "key"
     ⟨[], [], [], []⟩ ⟨"ct", none, "n"⟩ 0 ⟨some "RC9", some "wx9", some "CLOSED"⟩
     "RC9" "wx9" rfl rfl rfl (by decide)⟩

end Airchieve
